import Mathlib

/-!
Verification of the insidr debug server (src/backend/debug_server.py).

The development shallow-embeds the connection registry, the per-connection
device ingestion handler, the subscriber command handler and the broadcast
engine of the `DebugServer` class.  Python dicts become insertion-ordered
association lists, the subscriber set becomes a duplicate-free list, JSON
values become the inductive type `Json`, and wall-clock timestamps become
`Nat` values supplied by the environment.  Exceptions raised part-way
through a handler body are modelled faithfully: every mutation performed
before the raising expression is kept, everything after it is skipped
(the source wraps each message in a broad try/except that logs and
continues).

Modelling restrictions (commented where relevant): device identities on
the wire are JSON strings, as declared by the protocol (DeviceIdentity is
a string); the behaviour of the source on non-string `deviceId` values is
outside the model.
-/

/-- JSON values, as produced by `json.loads`.  Objects are association
lists of string keys in insertion order (Python dicts preserve insertion
order and have unique keys). -/
inductive Json where
  | null : Json
  | bool : Bool → Json
  | num : Int → Json
  | str : String → Json
  | arr : List Json → Json
  | obj : List (String × Json) → Json

/-- Lookup in a Python dict: value of the first (unique) entry with the
given key, `none` when absent. -/
def dictGet {κ α : Type} [DecidableEq κ] : List (κ × α) → κ → Option α
  | [], _ => none
  | (k', v) :: rest, k => if k' = k then some v else dictGet rest k

/-- Python dict assignment `m[k] = v`: overwrite the entry in place when
the key is present, append a new entry otherwise. -/
def dictSet {κ α : Type} [DecidableEq κ] : List (κ × α) → κ → α → List (κ × α)
  | [], k, v => [(k, v)]
  | (k', v') :: rest, k, v => if k' = k then (k, v) :: rest else (k', v') :: dictSet rest k v

/-- Python dict deletion `del m[k]`: drop every entry with the given key
(a well-formed dict has at most one). -/
def dictDel {κ α : Type} [DecidableEq κ] : List (κ × α) → κ → List (κ × α)
  | [], _ => []
  | (k', v') :: rest, k => if k' = k then dictDel rest k else (k', v') :: dictDel rest k

/-- Field access on a JSON object (`event.get(k)` / `event[k]`): `none`
both when the key is absent and when the value is not an object (call
sites distinguish the two situations structurally, matching where the
source raises). -/
def Json.get? : Json → String → Option Json
  | .obj kvs, k => dictGet kvs k
  | _, _ => none

/-- Python item assignment `event[k] = v` on a JSON object; identity on
non-objects (never reached at such values in the handlers below). -/
def Json.setField : Json → String → Json → Json
  | .obj kvs, k, v => .obj (dictSet kvs k v)
  | j, _, _ => j

/-- The test in `handle_device` comparing the frame type field to the
reserved handshake marker `_auth`. -/
def isAuthMsg (e : Json) : Bool :=
  match e.get? "type" with
  | some (.str t) => t = "_auth"
  | _ => false

/-- Connection handles. The source stores websocket objects; the model
names each live connection by a number. -/
abbrev ConnId := Nat

/-- The value stored in `self.device_info[device_id]`.  Timestamps
(`datetime.now().isoformat()` in the source) are modelled as the `Nat`
instant supplied with the frame. -/
structure DeviceInfo where
  deviceId : String
  userAgent : Json
  url : Json
  connectedAt : Nat
  lastSeen : Nat

/-- The JSON rendering of a DeviceInfo dict, as broadcast in
`device.connected` messages and in `devices.list`. -/
def DeviceInfo.toJson (i : DeviceInfo) : Json :=
  .obj [("deviceId", .str i.deviceId), ("userAgent", i.userAgent), ("url", i.url),
        ("connectedAt", .num i.connectedAt), ("lastSeen", .num i.lastSeen)]

/-- The registry state of a `DebugServer` instance: the four maps/sets
initialised in `__init__`. -/
structure ServerState where
  devices : List (String × ConnId)
  device_events : List (String × List Json)
  device_info : List (String × DeviceInfo)
  subscribers : List ConnId

/-- The freshly constructed server: all maps empty. -/
def initServer : ServerState := ⟨[], [], [], []⟩

/-- Python `set.add` on the subscriber set (list without duplicates). -/
def subAdd (subs : List ConnId) (c : ConnId) : List ConnId :=
  if c ∈ subs then subs else subs ++ [c]

/-- The spec operation `GetEvents(id)`: in the source,
`self.device_events.get(device_id, [])`. -/
def GetEvents (st : ServerState) (d : String) : List Json :=
  (dictGet st.device_events d).getD []

/-- `broadcast_to_subscribers`: attempt delivery to every member of the
subscriber set; sends to members whose connection is closed raise
`ConnectionClosed`, which the loop catches and records, and the failed
members are removed from the set after the pass.  `closed` is the
environment oracle saying which connections fail.  Returns the list of
(subscriber, message) deliveries that succeeded, and the pruned
subscriber set. -/
def broadcast_to_subscribers (closed : ConnId → Bool) (subs : List ConnId) (msg : Json) :
    List (ConnId × Json) × List ConnId :=
  if subs.isEmpty then ([], subs)
  else
    let disconnected := subs.filter closed
    let sent := (subs.filter (fun s => !closed s)).map (fun s => (s, msg))
    (sent, subs.filter (fun s => decide (s ∉ disconnected)))

/-- One iteration of the `async for message in websocket` loop of
`handle_device`.  `raw = none` is an unparseable frame
(`json.JSONDecodeError`: logged and skipped).  `device_id` is the
handler-local variable of the same name.  Returns the new registry
state, the new `device_id`, and the subscriber deliveries made.

Exception flow is kept exactly as in the source: a missing `payload` or
`deviceId` key raises before any mutation; a missing `userAgent` or
`url` key raises while the DeviceInfo dict literal is being built, after
`self.devices[device_id] = websocket` has already run and after the
local `device_id` was rebound; a regular event from a device whose
DeviceInfo is absent raises on the `lastSeen` update after the event was
already appended, skipping only the broadcast.  Frames whose payload
`deviceId` is not a JSON string are outside the model (the protocol
declares it a string) and are treated as skipped. -/
def handle_device_message (closed : ConnId → Bool) (conn : ConnId) (now : Nat)
    (st : ServerState) (device_id : Option String) (raw : Option Json) :
    ServerState × Option String × List (ConnId × Json) :=
  match raw with
  | none => (st, device_id, [])
  | some event =>
    match event with
    | .obj _ =>
      if isAuthMsg event then
        match event.get? "payload" with
        | none => (st, device_id, [])
        | some payload =>
          match payload.get? "deviceId" with
          | some (.str d) =>
            let st1 := { st with devices := dictSet st.devices d conn }
            match payload.get? "userAgent", payload.get? "url" with
            | some ua, some url =>
              let info : DeviceInfo := ⟨d, ua, url, now, now⟩
              let st2 := { st1 with device_info := dictSet st1.device_info d info }
              let msg : Json := .obj [("type", .str "device.connected"), ("payload", info.toJson)]
              let bp := broadcast_to_subscribers closed st2.subscribers msg
              ({ st2 with subscribers := bp.2 }, some d, bp.1)
            | _, _ => (st1, some d, [])
          | _ => (st, device_id, [])
      else
        match device_id with
        | none => (st, device_id, [])
        | some d =>
          if d = "" then (st, device_id, [])
          else
            let stamped := event.setField "deviceId" (.str d)
            let evs1 := (dictGet st.device_events d).getD [] ++ [stamped]
            let evs2 := if evs1.length > 1000 then evs1.drop (evs1.length - 1000) else evs1
            let st1 := { st with device_events := dictSet st.device_events d evs2 }
            match dictGet st1.device_info d with
            | none => (st1, device_id, [])
            | some info =>
              let st2 := { st1 with
                device_info := dictSet st1.device_info d { info with lastSeen := now } }
              let bp := broadcast_to_subscribers closed st2.subscribers stamped
              ({ st2 with subscribers := bp.2 }, device_id, bp.1)
    | _ => (st, device_id, [])

/-- The `finally` block of `handle_device`: run on connection
termination with the final value of the local `device_id`. -/
def handle_device_close (closed : ConnId → Bool) (st : ServerState)
    (device_id : Option String) : ServerState × List (ConnId × Json) :=
  match device_id with
  | none => (st, [])
  | some d =>
    if d = "" then (st, [])
    else
      match dictGet st.devices d with
      | none => (st, [])
      | some _ =>
        let st1 := { st with devices := dictDel st.devices d }
        let msg : Json := .obj [("type", .str "device.disconnected"),
                                ("payload", .obj [("deviceId", .str d)])]
        let bp := broadcast_to_subscribers closed st1.subscribers msg
        ({ st1 with subscribers := bp.2 }, bp.1)

/-- The message loop of `handle_device` over a list of timestamped
inbound frames, threading the registry state and the local `device_id`
and collecting all subscriber deliveries. -/
def run_device (closed : ConnId → Bool) (conn : ConnId) :
    ServerState → Option String → List (Nat × Option Json) →
    ServerState × Option String × List (ConnId × Json)
  | st, device_id, [] => (st, device_id, [])
  | st, device_id, (now, raw) :: rest =>
    let r1 := handle_device_message closed conn now st device_id raw
    let r2 := run_device closed conn r1.1 r1.2.1 rest
    (r2.1, r2.2.1, r1.2.2 ++ r2.2.2)

/-- One iteration of the message loop of `handle_subscriber`: serves
`device.request_events` replies from the ring buffers and forwards
`device.send_command` to the target device when connected.  Returns the
(unchanged) registry state and the sends performed, each as
(destination connection, message).  Frames whose `deviceId` is not a
JSON string are outside the model. -/
def handle_subscriber_message (st : ServerState) (conn : ConnId) (raw : Option Json) :
    ServerState × List (ConnId × Json) :=
  match raw with
  | none => (st, [])
  | some command =>
    match command.get? "type" with
    | some (.str "device.request_events") =>
      match command.get? "deviceId" with
      | some (.str d) =>
        let events := (dictGet st.device_events d).getD []
        (st, [(conn, .obj [("type", .str "device.events"),
                           ("payload", .obj [("deviceId", .str d), ("events", .arr events)])])])
      | _ => (st, [])
    | some (.str "device.send_command") =>
      match command.get? "deviceId" with
      | some (.str d) =>
        match dictGet st.devices d with
        | none => (st, [])
        | some devConn =>
          match command.get? "command" with
          | none => (st, [])
          | some c =>
            let payload := (command.get? "payload").getD (.obj [])
            (st, [(devConn, .obj [("type", .str "command"), ("command", c),
                                  ("payload", payload)])])
      | _ => (st, [])
    | _ => (st, [])

/-- The `devices.list` message sent to a subscriber on connect. -/
def devices_list_message (st : ServerState) : Json :=
  .obj [("type", .str "devices.list"), ("payload", .arr (st.device_info.map (fun p => p.2.toJson)))]

/-- Whole-system state: the shared registry plus, for each open device
connection, the current value of its handler-local `device_id`. -/
structure Sys where
  server : ServerState
  devConns : List (ConnId × Option String)

/-- The initial system: fresh server, no open device connections. -/
def initSys : Sys := ⟨initServer, []⟩

/-- Environment actions driving the system.  `failed` lists the
subscriber connections whose sends raise during any broadcast performed
while handling the action. -/
inductive Act where
  | devOpen (conn : ConnId)
  | devFrame (conn : ConnId) (now : Nat) (raw : Option Json) (failed : List ConnId)
  | devClose (conn : ConnId) (failed : List ConnId)
  | subOpen (conn : ConnId)
  | subFrame (conn : ConnId) (raw : Option Json)
  | subClose (conn : ConnId)

/-- The broadcast failure oracle induced by a list of failing
subscriber connections. -/
def closedOf (failed : List ConnId) : ConnId → Bool := fun c => c ∈ failed

/-- One system transition. -/
def Sys.step (s : Sys) : Act → Sys
  | .devOpen c => { s with devConns := dictSet s.devConns c none }
  | .devFrame c now raw failed =>
    match dictGet s.devConns c with
    | none => s
    | some devId =>
      let r := handle_device_message (closedOf failed) c now s.server devId raw
      { server := r.1, devConns := dictSet s.devConns c r.2.1 }
  | .devClose c failed =>
    match dictGet s.devConns c with
    | none => s
    | some devId =>
      let r := handle_device_close (closedOf failed) s.server devId
      { server := r.1, devConns := dictDel s.devConns c }
  | .subOpen c =>
    { s with server := { s.server with subscribers := subAdd s.server.subscribers c } }
  | .subFrame c raw =>
    { s with server := (handle_subscriber_message s.server c raw).1 }
  | .subClose c =>
    { s with server := { s.server with
        subscribers := s.server.subscribers.filter (fun x => decide (x ≠ c)) } }

/-- Run a list of actions from a system state. -/
def runSys (s : Sys) : List Act → Sys
  | [] => s
  | a :: rest => runSys (s.step a) rest

/-- The canonical handshake frame of the wire protocol. -/
def authFrame (d : String) (ua url : Json) : Json :=
  .obj [("type", .str "_auth"),
        ("payload", .obj [("deviceId", .str d), ("userAgent", ua), ("url", url)])]

/-- The last `n` elements of a list (Python slice `l[-n:]` when the list
is longer than `n`). -/
def lastN (n : Nat) (l : List α) : List α := l.drop (l.length - n)

/-- The events a device handler stores for the parseable frames of a
list: each stamped with the device identity, as
the deviceId item assignment in `handle_device` does. -/
def stampedEvents (d : String) (frames : List (Nat × Option Json)) : List Json :=
  frames.filterMap (fun f =>
    match f.2 with
    | some e => some (e.setField "deviceId" (.str d))
    | none => none)

/-- A frame that `handle_device` treats as a regular event: parseable,
a JSON object, and not a handshake control message. -/
def isRegularEventFrame (raw : Option Json) : Bool :=
  match raw with
  | some (.obj kvs) => !isAuthMsg (.obj kvs)
  | _ => false

/-- The keys of a dict, in order. -/
def dictKeys {κ α : Type} (m : List (κ × α)) : List κ := m.map Prod.fst

/-- The invariant `noAuthStored`: no ring buffer of the registry holds a
handshake control message. -/
def noAuthStored (st : ServerState) : Prop :=
  ∀ d e, e ∈ GetEvents st d → isAuthMsg e = false

/-- The no-auth invariant, phrased on a raw ring-buffer map. -/
def noAuthBuf (m : List (String × List Json)) : Prop :=
  ∀ d e, e ∈ (dictGet m d).getD [] → isAuthMsg e = false

/-- A sample user agent value used in concrete scenarios. -/
def sampleUA : Json := .str "TestAgent/1.0"

/-- A sample url value used in concrete scenarios. -/
def sampleUrl : Json := .str "http://device.local/app"

/-- A sample regular (non-auth) event frame body. -/
def sampleEvent : Json := .obj [("type", .str "log"), ("payload", .null)]

/-- The DeviceInfo entry produced by a handshake of `dev1` at time 0. -/
def sampleInfo : DeviceInfo := ⟨"dev1", sampleUA, sampleUrl, 0, 0⟩

/-- An `_auth` frame with no payload at all. -/
def authNoPayload : Json := .obj [("type", .str "_auth")]

/-- An `_auth` frame whose payload is missing `deviceId`. -/
def authEmptyPayload : Json := .obj [("type", .str "_auth"), ("payload", .obj [])]

/-- An `_auth` frame whose payload has `deviceId` and `url` but is
missing `userAgent`. -/
def authMissingUA : Json :=
  .obj [("type", .str "_auth"),
        ("payload", .obj [("deviceId", .str "dev1"), ("url", .str "u")])]

/-- Scenario: connection 1 authenticates as dev1, connection 2
authenticates as dev1 afterwards, then connection 1 terminates while
connection 2 is still open. -/
def c1Acts : List Act :=
  [.devOpen 1, .devFrame 1 0 (some (authFrame "dev1" sampleUA sampleUrl)) [],
   .devOpen 2, .devFrame 2 1 (some (authFrame "dev1" sampleUA sampleUrl)) [],
   .devClose 1 []]

/-- A registry state with dev1 connected (connection 1), one stored
event, a DeviceInfo entry for dev1, and one subscriber (connection 5). -/
def c3State : ServerState :=
  ⟨[("dev1", 1)], [("dev1", [sampleEvent])], [("dev1", sampleInfo)], [5]⟩

/-- Scenario: connection 1 authenticates as dev1 and then sends one
regular event. -/
def c6Acts : List Act :=
  [.devOpen 1, .devFrame 1 0 (some (authFrame "dev1" sampleUA sampleUrl)) [],
   .devFrame 1 1 (some sampleEvent) []]

/-- The stored (stamped) form of `sampleEvent` for dev1. -/
def c6Stored : Json :=
  .obj [("type", .str "log"), ("payload", .null), ("deviceId", .str "dev1")]

/-- A failure oracle under which exactly connection 2 is closed. -/
def c7Closed : ConnId → Bool := fun c => decide (c = 2)

/-- The broadcast pass of the C7 witness scenario: subscribers 1, 2, 3,
subscriber 2 closed. -/
def c7Pass : List (ConnId × Json) × List ConnId :=
  broadcast_to_subscribers c7Closed [1, 2, 3] Json.null

/-- A registry state in which dev1 is connected on connection 3. -/
def c10State : ServerState := ⟨[("dev1", 3)], [], [], []⟩

/-- A registry state in which dev1 is connected on connection 1 and
nothing else exists. -/
def c1State : ServerState := ⟨[("dev1", 1)], [], [], []⟩

section DictLemmas

variable {κ α : Type} [DecidableEq κ]

theorem dictGet_set_self (m : List (κ × α)) (k : κ) (v : α) :
    dictGet (dictSet m k v) k = some v := by
  induction m with
  | nil => simp [dictGet, dictSet]
  | cons p rest ih =>
    rcases p with ⟨k', v'⟩
    by_cases h : k' = k <;> simp [dictGet, dictSet, h, ih]

theorem dictGet_set_ne (m : List (κ × α)) (k k' : κ) (v : α) (h : k' ≠ k) :
    dictGet (dictSet m k v) k' = dictGet m k' := by
  induction m with
  | nil => simp [dictGet, dictSet, h.symm]
  | cons p rest ih =>
    rcases p with ⟨k₀, v₀⟩
    by_cases h₀ : k₀ = k
    · subst h₀
      simp [dictGet, dictSet, h.symm]
    · by_cases h₁ : k₀ = k' <;> simp [dictGet, dictSet, h₀, h₁, h, ih]

theorem dictGet_del_self (m : List (κ × α)) (k : κ) :
    dictGet (dictDel m k) k = none := by
  induction m with
  | nil => simp [dictGet, dictDel]
  | cons p rest ih =>
    rcases p with ⟨k', v'⟩
    by_cases h : k' = k <;> simp [dictGet, dictDel, h, ih]

theorem dictDel_sublist (m : List (κ × α)) (k : κ) : List.Sublist (dictDel m k) m := by
  induction m with
  | nil => simp [dictDel]
  | cons p rest ih =>
    rcases p with ⟨k₀, v₀⟩
    by_cases h : k₀ = k
    · simpa [dictDel, h] using ih.cons (k₀, v₀)
    · simpa [dictDel, h] using ih.cons₂ (k₀, v₀)

theorem mem_dictKeys_set (m : List (κ × α)) (k a : κ) (v : α) :
    a ∈ dictKeys (dictSet m k v) ↔ a ∈ dictKeys m ∨ a = k := by
  induction m with
  | nil => simp [dictKeys, dictSet, eq_comm]
  | cons p rest ih =>
    rcases p with ⟨k₀, v₀⟩
    simp only [dictKeys] at ih ⊢
    by_cases h : k₀ = k
    · subst h
      simp [dictSet, List.mem_cons]
      tauto
    · simp [dictSet, h, List.mem_cons, ih]
      tauto

theorem nodup_dictSet (m : List (κ × α)) (k : κ) (v : α)
    (h : (dictKeys m).Nodup) : (dictKeys (dictSet m k v)).Nodup := by
  induction m with
  | nil => simp [dictKeys, dictSet]
  | cons p rest ih =>
    rcases p with ⟨k', v'⟩
    simp only [dictKeys, List.map_cons, List.nodup_cons] at h
    by_cases hk : k' = k
    · subst hk
      simpa [dictKeys, dictSet, List.nodup_cons] using h
    · simp only [dictKeys, dictSet, if_neg hk, List.map_cons, List.nodup_cons]
      refine ⟨fun hm => ?_, ih h.2⟩
      rcases (mem_dictKeys_set rest k k' v).mp hm with hm' | rfl
      · exact h.1 hm'
      · exact hk rfl

theorem nodup_dictDel (m : List (κ × α)) (k : κ)
    (h : (dictKeys m).Nodup) : (dictKeys (dictDel m k)).Nodup :=
  List.Nodup.sublist ((dictDel_sublist m k).map Prod.fst) h

end DictLemmas

section LastNLemmas

variable {α : Type}

theorem lastN_of_le (n : Nat) (l : List α) (h : l.length ≤ n) : lastN n l = l := by
  unfold lastN
  rw [Nat.sub_eq_zero_of_le h, List.drop_zero]

theorem lastN_length_le (n : Nat) (l : List α) : (lastN n l).length ≤ n := by
  unfold lastN
  rw [List.length_drop]
  omega

theorem lastN_cons (n : Nat) (a : α) (l : List α) (h : n ≤ l.length) :
    lastN n (a :: l) = lastN n l := by
  unfold lastN
  have hl : (a :: l).length - n = (l.length - n) + 1 := by
    simp only [List.length_cons]
    omega
  rw [hl, List.drop_succ_cons]

theorem lastN_append_lastN (n : Nat) (xs v : List α) :
    lastN n (lastN n xs ++ v) = lastN n (xs ++ v) := by
  induction xs with
  | nil => simp [lastN]
  | cons x xs ih =>
    by_cases h : (x :: xs).length ≤ n
    · rw [lastN_of_le n _ h]
    · have hx : n ≤ xs.length := by
        simp only [List.length_cons] at h
        omega
      have hxv : n ≤ (xs ++ v).length := by
        rw [List.length_append]
        omega
      rw [lastN_cons n x xs hx, ih, List.cons_append, lastN_cons n x (xs ++ v) hxv]

theorem lastN_append_right (n : Nat) (u v : List α) (h : n ≤ v.length) :
    lastN n (u ++ v) = lastN n v := by
  induction u with
  | nil => rfl
  | cons a u ih =>
    have hv : n ≤ (u ++ v).length := by
      rw [List.length_append]
      omega
    rw [List.cons_append, lastN_cons n a (u ++ v) hv, ih]

theorem trim_eq_lastN (n : Nat) (l : List α) :
    (if l.length > n then l.drop (l.length - n) else l) = lastN n l := by
  split
  · rfl
  · exact (lastN_of_le n l (by omega)).symm

end LastNLemmas

section BroadcastLemmas

/-- Delivery reaches every subscriber whose connection is not closed. -/
theorem broadcast_sent_mem (closed : ConnId → Bool) (subs : List ConnId) (msg : Json)
    (s : ConnId) (hmem : s ∈ subs) (hcl : closed s = false) :
    (s, msg) ∈ (broadcast_to_subscribers closed subs msg).1 := by
  cases subs with
  | nil => cases hmem
  | cons a l =>
    simp only [broadcast_to_subscribers, List.isEmpty_cons, Bool.false_eq_true, if_false]
    exact List.mem_map.mpr ⟨s, List.mem_filter.mpr ⟨hmem, by simp [hcl]⟩, rfl⟩

/-- A subscriber whose delivery succeeded stays in the subscriber set. -/
theorem broadcast_mem_subs (closed : ConnId → Bool) (subs : List ConnId) (msg : Json)
    (s : ConnId) (hmem : s ∈ subs) (hcl : closed s = false) :
    s ∈ (broadcast_to_subscribers closed subs msg).2 := by
  cases subs with
  | nil => cases hmem
  | cons a l =>
    simp only [broadcast_to_subscribers, List.isEmpty_cons, Bool.false_eq_true, if_false]
    refine List.mem_filter.mpr ⟨hmem, ?_⟩
    refine decide_eq_true (fun hd => ?_)
    have := (List.mem_filter.mp hd).2
    rw [hcl] at this
    cases this

/-- A subscriber whose delivery failed is removed from the subscriber
set by the pass. -/
theorem broadcast_not_mem_subs (closed : ConnId → Bool) (subs : List ConnId) (msg : Json)
    (s : ConnId) (hcl : closed s = true) :
    s ∉ (broadcast_to_subscribers closed subs msg).2 := by
  cases subs with
  | nil =>
    intro hIn
    simp only [broadcast_to_subscribers, List.isEmpty_nil, if_true] at hIn
    cases hIn
  | cons a l =>
    intro hIn
    simp only [broadcast_to_subscribers, List.isEmpty_cons, Bool.false_eq_true, if_false] at hIn
    rcases List.mem_filter.mp hIn with ⟨hs, hdec⟩
    exact (of_decide_eq_true hdec) (List.mem_filter.mpr ⟨hs, hcl⟩)

/-- The pruned subscriber set is a subset of the original. -/
theorem broadcast_subs_subset (closed : ConnId → Bool) (subs : List ConnId) (msg : Json)
    (s : ConnId) (hmem : s ∈ (broadcast_to_subscribers closed subs msg).2) : s ∈ subs := by
  cases subs with
  | nil =>
    simp only [broadcast_to_subscribers, List.isEmpty_nil, if_true] at hmem
    cases hmem
  | cons a l =>
    simp only [broadcast_to_subscribers, List.isEmpty_cons, Bool.false_eq_true, if_false] at hmem
    exact (List.mem_filter.mp hmem).1

end BroadcastLemmas

section HandlerShapeLemmas

/-- The subscriber message handler never mutates the registry. -/
theorem handle_subscriber_state (st : ServerState) (conn : ConnId) (raw : Option Json) :
    (handle_subscriber_message st conn raw).1 = st := by
  unfold handle_subscriber_message
  repeat (first | rfl | split)

/-- Stamping the device identity onto an event does not change whether
it is a handshake control message. -/
theorem isAuthMsg_setField (kvs : List (String × Json)) (v : Json) :
    isAuthMsg (Json.setField (.obj kvs) "deviceId" v) = isAuthMsg (.obj kvs) := by
  simp only [isAuthMsg, Json.setField, Json.get?]
  rw [dictGet_set_ne kvs "deviceId" "type" v (by decide)]

/-- Overwriting one ring buffer with events that are either old events
of the same buffer or non-auth messages keeps the invariant. -/
theorem noAuthBuf_set (m : List (String × List Json)) (h : noAuthBuf m) (d : String)
    (evs : List Json)
    (hsub : ∀ e ∈ evs, e ∈ (dictGet m d).getD [] ∨ isAuthMsg e = false) :
    noAuthBuf (dictSet m d evs) := by
  intro d' e he
  by_cases hdd : d' = d
  · subst hdd
    rw [dictGet_set_self] at he
    simp only [Option.getD_some] at he
    rcases hsub e he with hin | hfa
    · exact h d' e hin
    · exact hfa
  · rw [dictGet_set_ne m d d' evs hdd] at he
    exact h d' e he

/-- `noAuthStored` only depends on the ring buffers. -/
theorem noAuthStored_congr {st st' : ServerState}
    (h : st'.device_events = st.device_events) (hs : noAuthStored st) : noAuthStored st' := by
  intro d e he
  exact hs d e (by rwa [GetEvents, h] at he)

/-- The device message handler keeps the invariant that no ring buffer
holds a handshake control message. -/
theorem noAuthStored_hdm (closed : ConnId → Bool) (conn : ConnId) (now : Nat)
    (st : ServerState) (devId : Option String) (raw : Option Json)
    (h : noAuthStored st) :
    noAuthStored (handle_device_message closed conn now st devId raw).1 := by
  cases raw with
  | none => exact h
  | some event =>
    cases event with
    | null => exact h
    | bool b => exact h
    | num n => exact h
    | str s => exact h
    | arr xs => exact h
    | obj kvs =>
      by_cases hA : isAuthMsg (.obj kvs)
      · simp only [handle_device_message, hA, if_true]
        split
        · exact h
        · split
          · split
            · exact noAuthStored_congr rfl h
            · exact noAuthStored_congr rfl h
          · exact h
      · simp only [handle_device_message, hA, Bool.false_eq_true, if_false]
        cases devId with
        | none => exact h
        | some d =>
          by_cases hd : d = ""
          · simp only [hd, if_pos rfl]
            exact h
          · simp only [if_neg hd]
            have hbuf : noAuthBuf
                (dictSet st.device_events d
                  (if ((dictGet st.device_events d).getD [] ++
                        [(Json.obj kvs).setField "deviceId" (.str d)]).length > 1000
                   then ((dictGet st.device_events d).getD [] ++
                        [(Json.obj kvs).setField "deviceId" (.str d)]).drop
                          (((dictGet st.device_events d).getD [] ++
                            [(Json.obj kvs).setField "deviceId" (.str d)]).length - 1000)
                   else (dictGet st.device_events d).getD [] ++
                        [(Json.obj kvs).setField "deviceId" (.str d)])) := by
              refine noAuthBuf_set st.device_events h d _ ?_
              intro e he
              rw [trim_eq_lastN] at he
              unfold lastN at he
              replace he := List.drop_subset _ _ he
              rcases List.mem_append.mp he with hin | hin
              · exact Or.inl hin
              · rcases List.mem_singleton.mp hin with rfl
                rw [isAuthMsg_setField]
                exact Or.inr (by simpa using hA)
            split
            · exact hbuf
            · exact hbuf

/-- Every branch of the device message handler leaves the connection
mapping unchanged or overwrites a single identity with the connection
of this handler. -/
theorem hdm_devices_shape (closed : ConnId → Bool) (conn : ConnId) (now : Nat)
    (st : ServerState) (devId : Option String) (raw : Option Json) :
    (handle_device_message closed conn now st devId raw).1.devices = st.devices ∨
    ∃ d, (handle_device_message closed conn now st devId raw).1.devices =
      dictSet st.devices d conn := by
  unfold handle_device_message
  repeat (first | (left; rfl) | (right; exact ⟨_, rfl⟩) | split | dsimp only)

/-- Every branch of the disconnect cleanup leaves the connection
mapping unchanged or deletes a single identity. -/
theorem hdc_devices_shape (closed : ConnId → Bool) (st : ServerState)
    (devId : Option String) :
    (handle_device_close closed st devId).1.devices = st.devices ∨
    ∃ d, (handle_device_close closed st devId).1.devices = dictDel st.devices d := by
  unfold handle_device_close
  repeat (first | (left; rfl) | (right; exact ⟨_, rfl⟩) | split | dsimp only)

/-- From an unbound identity, one message either leaves everything
unchanged or binds an identity. -/
theorem hdm_none_cases (closed : ConnId → Bool) (conn : ConnId) (now : Nat)
    (st : ServerState) (raw : Option Json) :
    handle_device_message closed conn now st none raw = (st, none, []) ∨
    ∃ d, (handle_device_message closed conn now st none raw).2.1 = some d := by
  unfold handle_device_message
  repeat (first | (left; rfl) | (right; exact ⟨_, rfl⟩) | split | dsimp only)

/-- A bound identity never becomes unbound. -/
theorem hdm_some_devId (closed : ConnId → Bool) (conn : ConnId) (now : Nat)
    (st : ServerState) (d : String) (raw : Option Json) :
    ∃ d', (handle_device_message closed conn now st (some d) raw).2.1 = some d' := by
  unfold handle_device_message
  repeat (first | exact ⟨_, rfl⟩ | split | dsimp only)

/-- The message loop started with a bound identity ends with a bound
identity. -/
theorem run_device_some (closed : ConnId → Bool) (conn : ConnId) :
    ∀ (frames : List (Nat × Option Json)) (st : ServerState) (d : String),
    ∃ d', (run_device closed conn st (some d) frames).2.1 = some d' := by
  intro frames
  induction frames with
  | nil => exact fun st d => ⟨d, rfl⟩
  | cons f rest ih =>
    intro st d
    rcases f with ⟨now, raw⟩
    rcases hdm_some_devId closed conn now st d raw with ⟨d1, hd1⟩
    rcases ih (handle_device_message closed conn now st (some d) raw).1 d1 with ⟨d2, hd2⟩
    refine ⟨d2, ?_⟩
    simp only [run_device]
    rw [hd1]
    exact hd2

/-- If the message loop started unbound ends unbound, it changed
nothing and delivered nothing. -/
theorem run_device_none (closed : ConnId → Bool) (conn : ConnId) :
    ∀ (frames : List (Nat × Option Json)) (st : ServerState),
    (run_device closed conn st none frames).2.1 = none →
    run_device closed conn st none frames = (st, none, []) := by
  intro frames
  induction frames with
  | nil => intro st _; rfl
  | cons f rest ih =>
    intro st h
    rcases f with ⟨now, raw⟩
    rcases hdm_none_cases closed conn now st raw with h1 | ⟨d, hd⟩
    · simp only [run_device, h1] at h ⊢
      rw [ih st h]
      simp
    · exfalso
      simp only [run_device] at h
      rw [hd] at h
      rcases run_device_some closed conn rest
        (handle_device_message closed conn now st none raw).1 d with ⟨d', hd'⟩
      rw [hd'] at h
      cases h

/-- The disconnect cleanup keeps the no-auth-stored invariant. -/
theorem noAuthStored_hdc (closed : ConnId → Bool) (st : ServerState)
    (devId : Option String) (h : noAuthStored st) :
    noAuthStored (handle_device_close closed st devId).1 := by
  unfold handle_device_close
  split
  · exact h
  · split
    · exact h
    · split
      · exact h
      · exact noAuthStored_congr rfl h

end HandlerShapeLemmas

section SysInvariants

/-- One system step keeps the keys of the connection mapping
duplicate-free. -/
theorem step_devices_nodup (s : Sys) (a : Act)
    (h : (dictKeys s.server.devices).Nodup) :
    (dictKeys (s.step a).server.devices).Nodup := by
  cases a with
  | devOpen c => exact h
  | devFrame c now raw failed =>
    simp only [Sys.step]
    cases hg : dictGet s.devConns c with
    | none => exact h
    | some devId =>
      dsimp only
      rcases hdm_devices_shape (closedOf failed) c now s.server devId raw with he | ⟨d, he⟩
      · rw [he]; exact h
      · rw [he]; exact nodup_dictSet _ _ _ h
  | devClose c failed =>
    simp only [Sys.step]
    cases hg : dictGet s.devConns c with
    | none => exact h
    | some devId =>
      dsimp only
      rcases hdc_devices_shape (closedOf failed) s.server devId with he | ⟨d, he⟩
      · rw [he]; exact h
      · rw [he]; exact nodup_dictDel _ _ h
  | subOpen c => exact h
  | subFrame c raw =>
    show (dictKeys (handle_subscriber_message s.server c raw).1.devices).Nodup
    rw [handle_subscriber_state]
    exact h
  | subClose c => exact h

/-- A whole run keeps the keys of the connection mapping
duplicate-free. -/
theorem runSys_devices_nodup :
    ∀ (acts : List Act) (s : Sys), (dictKeys s.server.devices).Nodup →
    (dictKeys (runSys s acts).server.devices).Nodup := by
  intro acts
  induction acts with
  | nil => exact fun s h => h
  | cons a rest ih => exact fun s h => ih (s.step a) (step_devices_nodup s a h)

/-- One system step keeps the no-auth-stored invariant. -/
theorem step_noAuthStored (s : Sys) (a : Act) (h : noAuthStored s.server) :
    noAuthStored (s.step a).server := by
  cases a with
  | devOpen c => exact h
  | devFrame c now raw failed =>
    simp only [Sys.step]
    cases hg : dictGet s.devConns c with
    | none => exact h
    | some devId =>
      dsimp only
      exact noAuthStored_hdm (closedOf failed) c now s.server devId raw h
  | devClose c failed =>
    simp only [Sys.step]
    cases hg : dictGet s.devConns c with
    | none => exact h
    | some devId =>
      dsimp only
      exact noAuthStored_hdc (closedOf failed) s.server devId h
  | subOpen c => exact noAuthStored_congr rfl h
  | subFrame c raw =>
    show noAuthStored (handle_subscriber_message s.server c raw).1
    rw [handle_subscriber_state]
    exact h
  | subClose c => exact noAuthStored_congr rfl h

/-- A whole run keeps the no-auth-stored invariant. -/
theorem runSys_noAuthStored :
    ∀ (acts : List Act) (s : Sys), noAuthStored s.server →
    noAuthStored (runSys s acts).server := by
  intro acts
  induction acts with
  | nil => exact fun s h => h
  | cons a rest ih => exact fun s h => ih (s.step a) (step_noAuthStored s a h)

end SysInvariants

section RingBufferLemmas

theorem stampedEvents_nil (d : String) : stampedEvents d [] = [] := rfl

theorem stampedEvents_cons_some (d : String) (now : Nat) (e : Json)
    (frames : List (Nat × Option Json)) :
    stampedEvents d ((now, some e) :: frames) =
      e.setField "deviceId" (.str d) :: stampedEvents d frames := by
  simp [stampedEvents]

theorem stampedEvents_length (d : String) (frames : List (Nat × Option Json))
    (h : ∀ f ∈ frames, isRegularEventFrame f.2 = true) :
    (stampedEvents d frames).length = frames.length := by
  induction frames with
  | nil => rfl
  | cons f rest ih =>
    rcases f with ⟨now, raw⟩
    have hr := h (now, raw) (List.mem_cons_self _ _)
    cases raw with
    | none => simp [isRegularEventFrame] at hr
    | some e =>
      rw [stampedEvents_cons_some]
      simp only [List.length_cons]
      rw [ih (fun f hf => h f (List.mem_cons_of_mem _ hf))]

theorem stampedEvents_replicate (d : String) (n : Nat) (now : Nat) (e : Json) :
    stampedEvents d (List.replicate n (now, some e)) =
      List.replicate n (e.setField "deviceId" (.str d)) := by
  induction n with
  | zero => rfl
  | succ n ih =>
    rw [List.replicate_succ, List.replicate_succ, stampedEvents_cons_some, ih]

/-- A regular event processed in the `Authenticated` state with a
nonempty identity replaces the ring buffer with the last 1000 of the old
buffer plus the stamped event, and keeps the identity. -/
theorem hdm_store_buffer (closed : ConnId → Bool) (conn : ConnId) (now : Nat)
    (st : ServerState) (d : String) (kvs : List (String × Json))
    (hd : d ≠ "") (hA : isAuthMsg (.obj kvs) = false) :
    (handle_device_message closed conn now st (some d) (some (.obj kvs))).1.device_events =
      dictSet st.device_events d
        (lastN 1000 ((dictGet st.device_events d).getD [] ++
          [(Json.obj kvs).setField "deviceId" (.str d)])) ∧
    (handle_device_message closed conn now st (some d) (some (.obj kvs))).2.1 = some d := by
  simp only [handle_device_message, hA, Bool.false_eq_true, if_false, if_neg hd]
  rw [trim_eq_lastN]
  constructor
  · split
    · rfl
    · rfl
  · split
    · rfl
    · rfl

/-- Evolution of the ring buffer of one device over a run of regular events
in the `Authenticated` state. -/
theorem run_device_buffer (closed : ConnId → Bool) (conn : ConnId) (d : String)
    (hd : d ≠ "") :
    ∀ (frames : List (Nat × Option Json)) (st : ServerState),
    (∀ f ∈ frames, isRegularEventFrame f.2 = true) →
    (run_device closed conn st (some d) frames).2.1 = some d ∧
    GetEvents (run_device closed conn st (some d) frames).1 d =
      (if frames.isEmpty then GetEvents st d
       else lastN 1000 (GetEvents st d ++ stampedEvents d frames)) := by
  intro frames
  induction frames with
  | nil => exact fun st _ => ⟨rfl, by simp [run_device]⟩
  | cons f rest ih =>
    intro st hreg
    rcases f with ⟨now, raw⟩
    have hr := hreg (now, raw) (List.mem_cons_self _ _)
    cases raw with
    | none => simp [isRegularEventFrame] at hr
    | some e =>
      cases e with
      | null => simp [isRegularEventFrame] at hr
      | bool b => simp [isRegularEventFrame] at hr
      | num n => simp [isRegularEventFrame] at hr
      | str s => simp [isRegularEventFrame] at hr
      | arr xs => simp [isRegularEventFrame] at hr
      | obj kvs =>
        have hA : isAuthMsg (.obj kvs) = false := by
          simpa [isRegularEventFrame] using hr
        obtain ⟨hbuf, hdev⟩ := hdm_store_buffer closed conn now st d kvs hd hA
        obtain ⟨ih1, ih2⟩ :=
          ih (handle_device_message closed conn now st (some d) (some (.obj kvs))).1
            (fun f hf => hreg f (List.mem_cons_of_mem _ hf))
        have hge : GetEvents
            (handle_device_message closed conn now st (some d) (some (.obj kvs))).1 d =
            lastN 1000 (GetEvents st d ++ [(Json.obj kvs).setField "deviceId" (.str d)]) := by
          rw [GetEvents, hbuf, dictGet_set_self]
          simp only [Option.getD_some]
          rfl
        constructor
        · simp only [run_device]
          rw [hdev]
          exact ih1
        · simp only [run_device]
          rw [hdev, ih2]
          cases rest with
          | nil =>
            simp only [List.isEmpty_nil, if_true, List.isEmpty_cons, Bool.false_eq_true,
              if_false]
            rw [hge, stampedEvents_cons_some, stampedEvents_nil]
          | cons g rest' =>
            simp only [List.isEmpty_cons, Bool.false_eq_true, if_false]
            rw [hge, lastN_append_lastN, stampedEvents_cons_some]
            rw [List.append_assoc]
            rfl

end RingBufferLemmas

section ClaimC6

/-- Claim C6: for every reachable state of the system and every device,
no envelope of type `_auth` is ever present in the ring buffer of that
device — handshake control messages are never stored as history
events. -/
theorem c6_no_auth_in_ring_buffers (acts : List Act) (d : String) (e : Json)
    (he : e ∈ GetEvents (runSys initSys acts).server d) : isAuthMsg e = false := by
  refine runSys_noAuthStored acts initSys ?_ d e he
  intro d' e' h'
  cases h'

/-- Witness for C6 at a concrete trace: after dev1 authenticates and
sends one event, the stamped event is in the ring buffer of dev1 and is not
an `_auth` message. -/
theorem c6_no_auth_in_ring_buffers_witness :
    c6Stored ∈ GetEvents (runSys initSys c6Acts).server "dev1" ∧
    isAuthMsg c6Stored = false := by
  have hm : c6Stored ∈ GetEvents (runSys initSys c6Acts).server "dev1" :=
    (List.Mem.head [] : c6Stored ∈ [c6Stored])
  exact ⟨hm, c6_no_auth_in_ring_buffers c6Acts "dev1" c6Stored hm⟩

end ClaimC6

section ClaimC7

/-- Claim C7: during a broadcast pass, a delivery failure to one
subscriber does not prevent delivery to any other member: every member
whose connection is not closed receives the message and stays in the
subscriber set, and every member whose delivery failed is removed from
the subscriber set after the pass.  (The model function is total: a
failed send is caught inside the pass and never propagates to the
caller.) -/
theorem c7_broadcast_partial_failure (closed : ConnId → Bool) (subs : List ConnId)
    (msg : Json) (s : ConnId) (hs : s ∈ subs) :
    (closed s = false →
      (s, msg) ∈ (broadcast_to_subscribers closed subs msg).1 ∧
      s ∈ (broadcast_to_subscribers closed subs msg).2) ∧
    (closed s = true → s ∉ (broadcast_to_subscribers closed subs msg).2) :=
  ⟨fun hcl => ⟨broadcast_sent_mem closed subs msg s hs hcl,
               broadcast_mem_subs closed subs msg s hs hcl⟩,
   fun hcl => broadcast_not_mem_subs closed subs msg s hcl⟩

/-- Witness for C7: with subscribers 1, 2, 3 and subscriber 2 closed,
subscriber 1 receives the message and stays, subscriber 2 is removed. -/
theorem c7_broadcast_partial_failure_witness :
    (((1 : ConnId), Json.null) ∈ c7Pass.1 ∧ (1 : ConnId) ∈ c7Pass.2) ∧
    (2 : ConnId) ∉ c7Pass.2 :=
  ⟨(c7_broadcast_partial_failure c7Closed [1, 2, 3] Json.null 1 (by decide)).1 rfl,
   (c7_broadcast_partial_failure c7Closed [1, 2, 3] Json.null 2 (by decide)).2 rfl⟩

end ClaimC7

section ClaimC8

/-- Claim C8: a reference to a deviceId with no registry entry never
raises: a `device.request_events` request for an unknown deviceId is
answered with an empty event sequence and no state change, and a
`device.send_command` for a deviceId with no active connection
completes without error, sends nothing, and changes nothing. -/
theorem c8_unknown_device_reference :
    (∀ (st : ServerState) (conn : ConnId) (d : String),
       dictGet st.device_events d = none →
       handle_subscriber_message st conn
         (some (.obj [("type", .str "device.request_events"), ("deviceId", .str d)])) =
         (st, [(conn, .obj [("type", .str "device.events"),
           ("payload", .obj [("deviceId", .str d), ("events", .arr [])])])])) ∧
    (∀ (st : ServerState) (conn : ConnId) (d : String) (c p : Json),
       dictGet st.devices d = none →
       handle_subscriber_message st conn
         (some (.obj [("type", .str "device.send_command"), ("deviceId", .str d),
           ("command", c), ("payload", p)])) = (st, [])) := by
  constructor
  · intro st conn d h
    show (st, [(conn, Json.obj [("type", .str "device.events"),
      ("payload", Json.obj [("deviceId", Json.str d),
        ("events", Json.arr ((dictGet st.device_events d).getD []))])])]) = _
    rw [h]
    rfl
  · intro st conn d c p h
    simp [handle_subscriber_message, Json.get?, dictGet, h]

/-- Witness for C8 at the empty registry and the unknown id ghost. -/
theorem c8_unknown_device_reference_witness :
    handle_subscriber_message initServer 7
      (some (.obj [("type", .str "device.request_events"), ("deviceId", .str "ghost")])) =
      (initServer, [(7, .obj [("type", .str "device.events"),
        ("payload", .obj [("deviceId", .str "ghost"), ("events", .arr [])])])]) ∧
    handle_subscriber_message initServer 7
      (some (.obj [("type", .str "device.send_command"), ("deviceId", .str "ghost"),
        ("command", .str "reload"), ("payload", Json.null)])) = (initServer, []) :=
  ⟨c8_unknown_device_reference.1 initServer 7 "ghost" rfl,
   c8_unknown_device_reference.2 initServer 7 "ghost" (.str "reload") Json.null rfl⟩

end ClaimC8

section ClaimC9

/-- Claim C9: if a device connection terminates without ever having
completed a handshake (no identity bound), the whole connection was a
no-op: no registry state was created or removed, nothing was broadcast
during the connection, and the close handler changes nothing and
broadcasts nothing. -/
theorem c9_unauthenticated_close_no_effect (closed : ConnId → Bool) (conn : ConnId)
    (st : ServerState) (frames : List (Nat × Option Json))
    (h : (run_device closed conn st none frames).2.1 = none) :
    run_device closed conn st none frames = (st, none, []) ∧
    handle_device_close closed (run_device closed conn st none frames).1 none =
      ((run_device closed conn st none frames).1, []) :=
  ⟨run_device_none closed conn frames st h, rfl⟩

/-- Witness for C9: a connection that receives one regular frame while
unauthenticated and then closes leaves the empty registry unchanged. -/
theorem c9_unauthenticated_close_no_effect_witness :
    run_device (fun _ => false) 1 initServer none [(0, some sampleEvent)] =
      (initServer, none, []) ∧
    handle_device_close (fun _ => false)
      (run_device (fun _ => false) 1 initServer none [(0, some sampleEvent)]).1 none =
      ((run_device (fun _ => false) 1 initServer none [(0, some sampleEvent)]).1, []) :=
  c9_unauthenticated_close_no_effect (fun _ => false) 1 initServer [(0, some sampleEvent)] rfl

end ClaimC9

section ClaimC10

/-- Claim C10: a `device.send_command` frame that names a connected
deviceId but omits the payload field is still forwarded, with the empty
object substituted as payload. -/
theorem c10_send_command_default_payload (st : ServerState) (conn : ConnId)
    (d : String) (dc : ConnId) (c : Json) (h : dictGet st.devices d = some dc) :
    handle_subscriber_message st conn
      (some (.obj [("type", .str "device.send_command"), ("deviceId", .str d),
        ("command", c)])) =
      (st, [(dc, .obj [("type", .str "command"), ("command", c),
        ("payload", .obj [])])]) := by
  simp [handle_subscriber_message, Json.get?, dictGet, h]

/-- Witness for C10: dev1 connected on connection 3 receives the
command with empty-object payload. -/
theorem c10_send_command_default_payload_witness :
    handle_subscriber_message c10State 9
      (some (.obj [("type", .str "device.send_command"), ("deviceId", .str "dev1"),
        ("command", .str "reload")])) =
      (c10State, [(3, .obj [("type", .str "command"), ("command", .str "reload"),
        ("payload", .obj [])])]) :=
  c10_send_command_default_payload c10State 9 "dev1" 3 (.str "reload") rfl

end ClaimC10

section ClaimC1

/-- Claim C1 counterexample: connection 1 authenticates as dev1, then
connection 2 authenticates as dev1, then connection 1 terminates while
connection 2 is still open.  The claim asserts the mapping for dev1
still refers to connection 2; in fact the close handler deleted the
entry (it checks only membership, not ownership), so the mapping for
dev1 is gone while connection 2 is still open and bound to dev1. -/
theorem c1_counterexample :
    dictGet (runSys initSys c1Acts).server.devices "dev1" = none ∧
    dictGet (runSys initSys c1Acts).devConns 2 = some (some "dev1") :=
  ⟨rfl, rfl⟩

/-- Claim C1 (amended): the connection mapping always has at most one
entry per DeviceIdentity, and a completed handshake sets the entry of
that identity to the handshaking connection; but when a connection whose bound
(nonempty) identity has an entry in the mapping terminates, the entry is
removed regardless of which connection it currently refers to — so after
the scenario of the claim the mapping holds no entry for the deviceId at
all, rather than the newer connection. -/
theorem c1_amended_connection_mapping :
    (∀ acts : List Act, (dictKeys (runSys initSys acts).server.devices).Nodup) ∧
    (∀ (closed : ConnId → Bool) (conn : ConnId) (now : Nat) (st : ServerState)
        (devId : Option String) (d : String) (ua url : Json),
        dictGet (handle_device_message closed conn now st devId
          (some (authFrame d ua url))).1.devices d = some conn) ∧
    (∀ (closed : ConnId → Bool) (st : ServerState) (d : String), d ≠ "" →
        (dictGet st.devices d).isSome = true →
        dictGet (handle_device_close closed st (some d)).1.devices d = none) := by
  refine ⟨?_, ?_, ?_⟩
  · intro acts
    exact runSys_devices_nodup acts initSys (by simp [dictKeys, initSys, initServer])
  · intro closed conn now st devId d ua url
    exact dictGet_set_self st.devices d conn
  · intro closed st d hd hs
    obtain ⟨c, hc⟩ := Option.isSome_iff_exists.mp hs
    simp only [handle_device_close, if_neg hd, hc]
    exact dictGet_del_self st.devices d

/-- Witness for the amended C1 at concrete inputs. -/
theorem c1_amended_connection_mapping_witness :
    (dictKeys (runSys initSys c1Acts).server.devices).Nodup ∧
    dictGet (handle_device_message (fun _ => false) 1 0 initServer none
      (some (authFrame "dev1" sampleUA sampleUrl))).1.devices "dev1" = some 1 ∧
    dictGet (handle_device_close (fun _ => false) c1State (some "dev1")).1.devices "dev1" =
      none :=
  ⟨c1_amended_connection_mapping.1 c1Acts,
   c1_amended_connection_mapping.2.1 (fun _ => false) 1 0 initServer none "dev1"
     sampleUA sampleUrl,
   c1_amended_connection_mapping.2.2 (fun _ => false) c1State "dev1" (by decide) rfl⟩

end ClaimC1

section ClaimC2

/-- Claim C2 counterexample: an `_auth` frame whose payload has
`deviceId` but no `userAgent`, arriving on a fresh connection to the
fresh server.  The claim asserts a no-op (no registry change, no
identity bound, still Connecting); in fact `self.devices[device_id] =
websocket` has already run and the local `device_id` is bound before the
DeviceInfo dict literal raises KeyError. -/
theorem c2_counterexample :
    (handle_device_message (fun _ => false) 1 0 initServer none
      (some authMissingUA)).1.devices = [("dev1", 1)] ∧
    (handle_device_message (fun _ => false) 1 0 initServer none
      (some authMissingUA)).2.1 = some "dev1" :=
  ⟨rfl, rfl⟩

/-- Claim C2 (amended): an `_auth` frame missing `payload` or missing
`deviceId` is a true no-op (no registry change, no identity bound,
connection still Connecting, processing continues); but an `_auth`
frame whose payload has `deviceId` while `userAgent` or `url` is
missing leaves the connection mapping overwritten with this connection
and the identity bound, with no DeviceInfo entry created or modified,
no ring buffer change, and no broadcast. -/
theorem c2_amended_incomplete_handshake :
    (∀ (closed : ConnId → Bool) (conn : ConnId) (now : Nat) (st : ServerState)
        (devId : Option String) (event : Json),
        event.get? "type" = some (.str "_auth") →
        event.get? "payload" = none →
        handle_device_message closed conn now st devId (some event) = (st, devId, [])) ∧
    (∀ (closed : ConnId → Bool) (conn : ConnId) (now : Nat) (st : ServerState)
        (devId : Option String) (event payload : Json),
        event.get? "type" = some (.str "_auth") →
        event.get? "payload" = some payload →
        payload.get? "deviceId" = none →
        handle_device_message closed conn now st devId (some event) = (st, devId, [])) ∧
    (∀ (closed : ConnId → Bool) (conn : ConnId) (now : Nat) (st : ServerState)
        (devId : Option String) (event payload : Json) (d : String),
        event.get? "type" = some (.str "_auth") →
        event.get? "payload" = some payload →
        payload.get? "deviceId" = some (.str d) →
        (payload.get? "userAgent" = none ∨ payload.get? "url" = none) →
        handle_device_message closed conn now st devId (some event) =
          ({ st with devices := dictSet st.devices d conn }, some d, [])) := by
  refine ⟨?_, ?_, ?_⟩
  · intro closed conn now st devId event hty hp
    cases event with
    | null => simp [Json.get?] at hty
    | bool b => simp [Json.get?] at hty
    | num n => simp [Json.get?] at hty
    | str s => simp [Json.get?] at hty
    | arr xs => simp [Json.get?] at hty
    | obj kvs =>
      have hA : isAuthMsg (.obj kvs) = true := by
        unfold isAuthMsg
        rw [hty]
        rfl
      simp only [handle_device_message, hA, if_true, hp]
  · intro closed conn now st devId event payload hty hp hid
    cases event with
    | null => simp [Json.get?] at hty
    | bool b => simp [Json.get?] at hty
    | num n => simp [Json.get?] at hty
    | str s => simp [Json.get?] at hty
    | arr xs => simp [Json.get?] at hty
    | obj kvs =>
      have hA : isAuthMsg (.obj kvs) = true := by
        unfold isAuthMsg
        rw [hty]
        rfl
      simp only [handle_device_message, hA, if_true, hp, hid]
  · intro closed conn now st devId event payload d hty hp hid hmiss
    cases event with
    | null => simp [Json.get?] at hty
    | bool b => simp [Json.get?] at hty
    | num n => simp [Json.get?] at hty
    | str s => simp [Json.get?] at hty
    | arr xs => simp [Json.get?] at hty
    | obj kvs =>
      have hA : isAuthMsg (.obj kvs) = true := by
        unfold isAuthMsg
        rw [hty]
        rfl
      rcases hmiss with hua | hurl
      · simp only [handle_device_message, hA, if_true, hp, hid, hua]
      · cases hu : payload.get? "userAgent" with
        | none => simp only [handle_device_message, hA, if_true, hp, hid, hu]
        | some ua => simp only [handle_device_message, hA, if_true, hp, hid, hu, hurl]

/-- Witness for the amended C2: the three failure shapes at the fresh
server. -/
theorem c2_amended_incomplete_handshake_witness :
    handle_device_message (fun _ => false) 1 0 initServer none (some authNoPayload) =
      (initServer, none, []) ∧
    handle_device_message (fun _ => false) 1 0 initServer none (some authEmptyPayload) =
      (initServer, none, []) ∧
    handle_device_message (fun _ => false) 1 0 initServer none (some authMissingUA) =
      ({ initServer with devices := dictSet initServer.devices "dev1" 1 }, some "dev1", []) :=
  ⟨c2_amended_incomplete_handshake.1 (fun _ => false) 1 0 initServer none
     authNoPayload rfl rfl,
   c2_amended_incomplete_handshake.2.1 (fun _ => false) 1 0 initServer none
     authEmptyPayload (.obj []) rfl rfl rfl,
   c2_amended_incomplete_handshake.2.2 (fun _ => false) 1 0 initServer none
     authMissingUA (.obj [("deviceId", .str "dev1"), ("url", .str "u")]) "dev1"
     rfl rfl rfl (Or.inl rfl)⟩

end ClaimC2

section ClaimC3

/-- Claim C3 counterexample: dev1 is connected with a DeviceInfo entry
and then its connection terminates.  The claim asserts the DeviceInfo
entry is removed together with the connection mapping; in fact nothing
in the source ever deletes `self.device_info`, so the entry is still
present after the cleanup. -/
theorem c3_counterexample :
    dictGet (handle_device_close (fun _ => false) c3State
      (some "dev1")).1.device_info "dev1" = some sampleInfo ∧
    some sampleInfo ≠ (none : Option DeviceInfo) :=
  ⟨rfl, by simp⟩

/-- Claim C3 (amended): when a device connection terminates while
authenticated with a nonempty deviceId that has a connection-mapping
entry, the cleanup removes the connection-mapping entry only — the
DeviceInfo entry and the ring buffer are left unchanged — and a
`device.disconnected` control event carrying the deviceId is broadcast
to every subscriber whose connection is alive. -/
theorem c3_amended_disconnect_cleanup (closed : ConnId → Bool) (st : ServerState)
    (d : String) (hd : d ≠ "") (hc : (dictGet st.devices d).isSome = true) :
    (handle_device_close closed st (some d)).1.devices = dictDel st.devices d ∧
    (handle_device_close closed st (some d)).1.device_info = st.device_info ∧
    (handle_device_close closed st (some d)).1.device_events = st.device_events ∧
    ∀ s ∈ st.subscribers, closed s = false →
      (s, Json.obj [("type", .str "device.disconnected"),
        ("payload", .obj [("deviceId", .str d)])]) ∈
        (handle_device_close closed st (some d)).2 := by
  obtain ⟨c, hc'⟩ := Option.isSome_iff_exists.mp hc
  simp only [handle_device_close, if_neg hd, hc']
  refine ⟨trivial, trivial, trivial, ?_⟩
  intro s hs hcl
  exact broadcast_sent_mem closed st.subscribers _ s hs hcl

/-- Witness for the amended C3 at the concrete state c3State. -/
theorem c3_amended_disconnect_cleanup_witness :
    (handle_device_close (fun _ => false) c3State (some "dev1")).1.devices =
      dictDel c3State.devices "dev1" ∧
    (handle_device_close (fun _ => false) c3State (some "dev1")).1.device_info =
      c3State.device_info ∧
    (handle_device_close (fun _ => false) c3State (some "dev1")).1.device_events =
      c3State.device_events ∧
    ((5 : ConnId), Json.obj [("type", .str "device.disconnected"),
      ("payload", .obj [("deviceId", .str "dev1")])]) ∈
      (handle_device_close (fun _ => false) c3State (some "dev1")).2 := by
  obtain ⟨h1, h2, h3, h4⟩ :=
    c3_amended_disconnect_cleanup (fun _ => false) c3State "dev1" (by decide) rfl
  exact ⟨h1, h2, h3, h4 5 (List.Mem.head []) rfl⟩

end ClaimC3

section ClaimC4

/-- Frames that a handler bound to the empty identity skips leave the
whole run unchanged (used to exhibit the empty-identity edge of the
event-storage path). -/
theorem run_device_skip_replicate (closed : ConnId → Bool) (conn : ConnId) (now : Nat)
    (raw : Option Json)
    (hskip : ∀ st, handle_device_message closed conn now st (some "") raw =
      (st, some "", [])) :
    ∀ (n : Nat) (st : ServerState),
    run_device closed conn st (some "") (List.replicate n (now, raw)) = (st, some "", []) := by
  intro n
  induction n with
  | zero => intro st; rfl
  | succ n ih =>
    intro st
    rw [List.replicate_succ]
    simp only [run_device]
    rw [hskip st]
    dsimp only
    rw [ih st]
    rfl

/-- Claim C4 counterexample: a device that completes its handshake with
the empty-string deviceId and then sends 1001 regular events.  The
claim asserts GetEvents returns the last 1000 of them; in fact
`if device_id:` is falsy for the empty string, so every event is
dropped and GetEvents returns the empty sequence. -/
theorem c4_counterexample :
    GetEvents (run_device (fun _ => false) 1
      (handle_device_message (fun _ => false) 1 0 initServer none
        (some (authFrame "" sampleUA sampleUrl))).1
      (handle_device_message (fun _ => false) 1 0 initServer none
        (some (authFrame "" sampleUA sampleUrl))).2.1
      (List.replicate 1001 (0, some sampleEvent))).1 "" ≠
    lastN 1000 (stampedEvents "" (List.replicate 1001 (0, some sampleEvent))) := by
  have hdev : (handle_device_message (fun _ => false) 1 0 initServer none
      (some (authFrame "" sampleUA sampleUrl))).2.1 = some "" := rfl
  rw [hdev]
  rw [run_device_skip_replicate (fun _ => false) 1 0 (some sampleEvent)
    (fun st => rfl) 1001 _]
  intro h
  have hl : GetEvents ((handle_device_message (fun _ => false) 1 0 initServer none
      (some (authFrame "" sampleUA sampleUrl))).1, some "",
      ([] : List (ConnId × Json))).1 "" = [] := rfl
  rw [hl, stampedEvents_replicate] at h
  have hlen := congrArg List.length h
  simp only [lastN, List.length_drop, List.length_replicate, List.length_nil] at hlen
  omega

/-- Claim C4 (amended): for every device with a NONEMPTY deviceId that
completes its handshake and then sends k > 1000 regular events,
GetEvents for that deviceId returns exactly the last 1000 of those
(identity-stamped) events, oldest dropped first, in send order.  (For
the empty-string deviceId the truthiness test `if device_id:` drops
every event instead.) -/
theorem c4_amended_last_1000 (closed : ConnId → Bool) (conn : ConnId) (now : Nat)
    (st : ServerState) (d : String) (ua url : Json)
    (frames : List (Nat × Option Json)) (hd : d ≠ "")
    (hreg : ∀ f ∈ frames, isRegularEventFrame f.2 = true)
    (hk : frames.length > 1000) :
    GetEvents (run_device closed conn
      (handle_device_message closed conn now st none (some (authFrame d ua url))).1
      (handle_device_message closed conn now st none (some (authFrame d ua url))).2.1
      frames).1 d = lastN 1000 (stampedEvents d frames) ∧
    (stampedEvents d frames).length = frames.length := by
  have hdev : (handle_device_message closed conn now st none
      (some (authFrame d ua url))).2.1 = some d := rfl
  rw [hdev]
  obtain ⟨h1, h2⟩ := run_device_buffer closed conn d hd frames
    (handle_device_message closed conn now st none (some (authFrame d ua url))).1 hreg
  have hne : frames.isEmpty = false := by
    cases frames with
    | nil => simp at hk
    | cons f r => rfl
  rw [h2, hne]
  simp only [Bool.false_eq_true, if_false]
  refine ⟨?_, stampedEvents_length d frames hreg⟩
  exact lastN_append_right 1000 _ _ (by rw [stampedEvents_length d frames hreg]; omega)

/-- Witness for the amended C4: dev1 sends 1001 events after its
handshake. -/
theorem c4_amended_last_1000_witness :
    GetEvents (run_device (fun _ => false) 1
      (handle_device_message (fun _ => false) 1 0 initServer none
        (some (authFrame "dev1" sampleUA sampleUrl))).1
      (handle_device_message (fun _ => false) 1 0 initServer none
        (some (authFrame "dev1" sampleUA sampleUrl))).2.1
      (List.replicate 1001 (0, some sampleEvent))).1 "dev1" =
      lastN 1000 (stampedEvents "dev1" (List.replicate 1001 (0, some sampleEvent))) ∧
    (stampedEvents "dev1" (List.replicate 1001 (0, some sampleEvent))).length =
      (List.replicate 1001 ((0 : Nat), some sampleEvent)).length :=
  c4_amended_last_1000 (fun _ => false) 1 0 initServer "dev1" sampleUA sampleUrl
    (List.replicate 1001 (0, some sampleEvent)) (by decide)
    (fun f hf => by rw [List.eq_of_mem_replicate hf]; rfl)
    (by rw [List.length_replicate]; omega)

end ClaimC4

section ClaimC5

/-- Claim C5 counterexample: a device that completes its handshake with
the empty-string deviceId and then sends one regular event.  The claim
asserts GetEvents returns exactly that event; in fact the truthiness
test drops it and GetEvents returns the empty sequence. -/
theorem c5_counterexample :
    GetEvents (run_device (fun _ => false) 1
      (handle_device_message (fun _ => false) 1 0 initServer none
        (some (authFrame "" sampleUA sampleUrl))).1
      (handle_device_message (fun _ => false) 1 0 initServer none
        (some (authFrame "" sampleUA sampleUrl))).2.1
      [(1, some sampleEvent)]).1 "" ≠
    stampedEvents "" [(1, some sampleEvent)] := by
  intro h
  have hlen := congrArg List.length h
  exact absurd hlen (by decide)

/-- Claim C5 (amended): for every device with a NONEMPTY deviceId and no
prior ring buffer that completes a handshake and then sends k ≤ 1000
regular events, GetEvents for that deviceId returns exactly those k
(identity-stamped) events in send order. -/
theorem c5_amended_exact_events (closed : ConnId → Bool) (conn : ConnId) (now : Nat)
    (st : ServerState) (d : String) (ua url : Json)
    (frames : List (Nat × Option Json)) (hd : d ≠ "")
    (hfresh : dictGet st.device_events d = none)
    (hreg : ∀ f ∈ frames, isRegularEventFrame f.2 = true)
    (hk : frames.length ≤ 1000) :
    GetEvents (run_device closed conn
      (handle_device_message closed conn now st none (some (authFrame d ua url))).1
      (handle_device_message closed conn now st none (some (authFrame d ua url))).2.1
      frames).1 d = stampedEvents d frames ∧
    (stampedEvents d frames).length = frames.length := by
  have hdev : (handle_device_message closed conn now st none
      (some (authFrame d ua url))).2.1 = some d := rfl
  rw [hdev]
  obtain ⟨h1, h2⟩ := run_device_buffer closed conn d hd frames
    (handle_device_message closed conn now st none (some (authFrame d ua url))).1 hreg
  have hge : GetEvents (handle_device_message closed conn now st none
      (some (authFrame d ua url))).1 d = [] := by
    show (dictGet st.device_events d).getD [] = []
    rw [hfresh]
    rfl
  refine ⟨?_, stampedEvents_length d frames hreg⟩
  rw [h2, hge]
  cases frames with
  | nil => rfl
  | cons f r =>
    simp only [List.isEmpty_cons, Bool.false_eq_true, if_false, List.nil_append]
    exact lastN_of_le 1000 _
      (by rw [stampedEvents_length d (f :: r) hreg]; exact hk)

/-- Witness for the amended C5: dev1 sends two events after its
handshake and GetEvents returns exactly the two stamped events. -/
theorem c5_amended_exact_events_witness :
    GetEvents (run_device (fun _ => false) 1
      (handle_device_message (fun _ => false) 1 0 initServer none
        (some (authFrame "dev1" sampleUA sampleUrl))).1
      (handle_device_message (fun _ => false) 1 0 initServer none
        (some (authFrame "dev1" sampleUA sampleUrl))).2.1
      [(1, some sampleEvent), (2, some sampleEvent)]).1 "dev1" =
      stampedEvents "dev1" [(1, some sampleEvent), (2, some sampleEvent)] ∧
    (stampedEvents "dev1" [(1, some sampleEvent), (2, some sampleEvent)]).length =
      ([(1, some sampleEvent), ((2 : Nat), some sampleEvent)]).length :=
  c5_amended_exact_events (fun _ => false) 1 0 initServer "dev1" sampleUA sampleUrl
    [(1, some sampleEvent), (2, some sampleEvent)] (by decide) rfl (by decide) (by decide)

end ClaimC5
